import Mathlib

/-!
Verification of the MCS-Agent request-handling pipeline.

Shallow embedding of the repository's Python sources:
* `app/services/chat_model.py` — `ChatModelHyperparams`, `ChatModelService`
* `app/routers/chat.py`        — the `POST /chat/` handler
* `app/utils/exceptions.py`    — `ChatModelError`
* `app/utils/logger.py`        — `_truncate_value`
* `app/main.py`                — the `GET /` health check

Python strings are modelled as `List Char` (`Str`), Python floats that only
ever carry exact decimal literals and bound checks as `Rat`, Python `None`
as `Option`, and raised exceptions as `Except` errors.
-/

/-- Python strings, as character lists (`len`, slicing and the `in` substring
test become `List.length`, `List.take` and `List.IsInfix`). -/
abbrev Str : Type := List Char

/-- Coerce a Lean string literal to the `Str` model. -/
def chars (x : String) : Str := x.toList

/- ### `app/utils/logger.py` — `_truncate_value` -/

/-- A Python value passed as a structured log field: a `str`, a `dict`/`list`
(carried with its JSON rendering), or any other object (carried with its
`str()` rendering). -/
inductive PyValue where
  | pstr (s : Str)
  | pdictOrList (jsonRendering : Str)
  | pother (strRendering : Str)
deriving DecidableEq

/-- The `result` string computed by the branches of `_truncate_value` before
truncation: the string itself, `json.dumps(value)`, or `str(value)`. -/
def renderValue : PyValue → Str
  | .pstr s => s
  | .pdictOrList j => j
  | .pother s => s

/-- The final line of `_truncate_value`:
`result[: max_len - 3] + "..." if len(result) > max_len else result`. -/
def truncateRendered (result : Str) (max_len : Nat) : Str :=
  if result.length > max_len then result.take (max_len - 3) ++ chars "..." else result

/-- `_truncate_value(value)` with the default `max_len = 100`. -/
def truncate_value (value : PyValue) : Str :=
  truncateRendered (renderValue value) 100

/- ### `app/main.py` — health check -/

/-- Process state visible to a request: the configuration values and whether
the upstream API currently answers.  The health check reads none of it. -/
structure ProcessState where
  upstreamAvailable : Bool

/-- The health payload `{"status": ..., "service": ...}`. -/
structure HealthPayload where
  status : Str
  service : Str
deriving DecidableEq

/-- `GET /` handler from `app/main.py`: returns a fixed payload; FastAPI
serves it with status 200. -/
def health_check (_st : ProcessState) : Nat × HealthPayload :=
  (200, { status := chars "healthy", service := chars "MCS-Agent" })

/- ### shared truncation lemmas -/

theorem truncateRendered_length_le (r : Str) : (truncateRendered r 100).length ≤ 100 := by
  unfold truncateRendered
  by_cases h : r.length > 100
  · simp only [h, if_true, List.length_append, List.length_take, chars]
    simp
    try omega
  · simp only [h, if_false]
    omega

/- ### `app/services/chat_model.py` — data model -/

/-- A chat message (role + content), the payload forwarded untouched. -/
structure Message where
  role : Str
  content : Str
deriving DecidableEq

/-- `ChatModelHyperparams` field values.  Floats carry only literals and
bound comparisons in the source, so they are modelled as `Rat`. -/
structure ChatModelHyperparams where
  temperature : Rat
  max_tokens : Int
  top_p : Rat
  frequency_penalty : Rat
  presence_penalty : Rat
  n : Int
  stop : List Str
  stream : Bool
  logprobs : Option Int
deriving DecidableEq

/-- The bound on the optional `logprobs` field: absent, or in `[0, 10]`. -/
def logprobsInBounds : Option Int → Prop
  | none => True
  | some l => 0 ≤ l ∧ l ≤ 10

instance : (o : Option Int) → Decidable (logprobsInBounds o)
  | none => .isTrue trivial
  | some l => inferInstanceAs (Decidable (0 ≤ l ∧ l ≤ 10))

/-- The conjunction of the pydantic `Field` bounds declared on
`ChatModelHyperparams`. -/
def ChatModelHyperparams.inBounds (h : ChatModelHyperparams) : Prop :=
  0 ≤ h.temperature ∧ h.temperature ≤ 1 ∧
  1 ≤ h.max_tokens ∧ h.max_tokens ≤ 8192 ∧
  0 ≤ h.top_p ∧ h.top_p ≤ 1 ∧
  0 ≤ h.frequency_penalty ∧ h.frequency_penalty ≤ 1 ∧
  0 ≤ h.presence_penalty ∧ h.presence_penalty ≤ 1 ∧
  1 ≤ h.n ∧ h.n ≤ 10 ∧
  logprobsInBounds h.logprobs

instance (h : ChatModelHyperparams) : Decidable h.inBounds := by
  unfold ChatModelHyperparams.inBounds
  infer_instance

/-- Pydantic construction of `ChatModelHyperparams`: succeeds exactly when
every field satisfies its declared bound, otherwise raises a validation
error (modelled as `none`). -/
def ChatModelHyperparams.validate (h : ChatModelHyperparams) :
    Option ChatModelHyperparams :=
  if h.inBounds then some h else none

/-- One named call option passed to `completions.create` by the `**`
expansion of `model_dump()`. -/
inductive OptionValue where
  | ofRat (q : Rat)
  | ofInt (i : Int)
  | ofStrList (l : List Str)
  | ofBool (b : Bool)
  | ofOptInt (o : Option Int)
deriving DecidableEq

/-- `model_dump()` on `ChatModelHyperparams`: the nine declared fields, in
declaration order, and nothing else. -/
def ChatModelHyperparams.model_dump (h : ChatModelHyperparams) :
    List (String × OptionValue) :=
  [("temperature", .ofRat h.temperature),
   ("max_tokens", .ofInt h.max_tokens),
   ("top_p", .ofRat h.top_p),
   ("frequency_penalty", .ofRat h.frequency_penalty),
   ("presence_penalty", .ofRat h.presence_penalty),
   ("n", .ofInt h.n),
   ("stop", .ofStrList h.stop),
   ("stream", .ofBool h.stream),
   ("logprobs", .ofOptInt h.logprobs)]

/-- `Config` (from `app/utils/config.py`, as used by the service): the
process-wide settings, loaded once and never mutated. -/
structure Config where
  server_host : Str
  server_port : Nat
  logging_level : Str
  llm_base_url : Str
  llm_api_key : Str
  llm_name : Str
deriving DecidableEq

/- ### `app/utils/exceptions.py` and raised exceptions -/

/-- `ChatModelError`: the single domain error kind.  Its `__str__` returns
`self.message`. -/
structure ChatModelError where
  message : Str
deriving DecidableEq

/-- A raised Python exception: either the domain error kind or any other
exception type, carried with its type name and its `str()` rendering. -/
inductive PyException where
  | chatModel (err : ChatModelError)
  | other (typeName : Str) (strRepr : Str)
deriving DecidableEq

/-- `str(e)` for a raised exception. -/
def PyException.str : PyException → Str
  | .chatModel err => err.message
  | .other _ s => s

/-- `type(e).__name__` for a raised exception. -/
def PyException.typeName : PyException → Str
  | .chatModel _ => chars "ChatModelError"
  | .other t _ => t

/- ### log events -/

/-- The level of an emitted log event. -/
inductive LogLevel where
  | debug
  | info
  | error
deriving DecidableEq

/-- One emitted log event (level and message; structured fields are not
needed by any claim). -/
structure LogEvent where
  level : LogLevel
  message : String
deriving DecidableEq

/- ### `ChatModelService` -/

/-- The state `ChatModelService.__init__` stores on `self` (the `AsyncOpenAI`
client is determined by `llm_base_url`/`llm_api_key` and not modelled
separately). -/
structure ChatModelService where
  config : Config
  llm_base_url : Str
  llm_api_key : Str
  llm_name : Str
  hyperparams : Option ChatModelHyperparams
deriving DecidableEq

/-- `ChatModelService.__init__`.  The model name is resolved by
`config.llm_name if not model_name else model_name`: Python `not` is true
for `None` and for the empty string. -/
def ChatModelService.init (config : Config)
    (hyperparams : Option ChatModelHyperparams) (model_name : Option Str) :
    ChatModelService :=
  { config := config
    llm_base_url := config.llm_base_url
    llm_api_key := config.llm_api_key
    llm_name :=
      match model_name with
      | none => config.llm_name
      | some m => if m = [] then config.llm_name else m
    hyperparams := hyperparams }

/-- The single call the service issues to
`self._client.chat.completions.create`: model name, messages, and the
hyperparameter set expanded as named options (`**model_dump()`), or no
options at all when `self.hyperparams` is `None`. -/
structure CompletionCall where
  model : Str
  messages : List Message
  options : List (String × OptionValue)
deriving DecidableEq

/-- The arguments `ChatModelService.chat` passes to `completions.create`. -/
def ChatModelService.buildCall (svc : ChatModelService)
    (messages : List Message) : CompletionCall :=
  { model := svc.llm_name
    messages := messages
    options :=
      match svc.hyperparams with
      | none => []
      | some h => h.model_dump }

/-- One upstream `Choice` record, returned verbatim. -/
structure Choice where
  finish_reason : Str
  content : Str
deriving DecidableEq

/-- The upstream `ChatCompletion` response object. -/
structure ChatCompletion where
  model : Str
  choices : List Choice
deriving DecidableEq

/-- The upstream API, as a black box: given the call arguments it either
returns a completion or raises some exception. -/
def Upstream : Type := CompletionCall → Except PyException ChatCompletion

/-- `ChatModelService.chat`: issue the single completion call; on success
log (debug, debug, info) and return the completion; on any exception `e`
log at error level and raise `ChatModelError(f"Error chatting with model: {e}")`.
Returns the emitted log events, the upstream calls issued, and the
result. -/
def ChatModelService.chat (svc : ChatModelService) (messages : List Message)
    (upstream : Upstream) :
    List LogEvent × List CompletionCall × Except PyException ChatCompletion :=
  let call := svc.buildCall messages
  match upstream call with
  | .ok completion =>
      ([⟨.debug, "Initiating chat completion"⟩,
        ⟨.debug, "Chat completion received"⟩,
        ⟨.info, "Chat completion successful"⟩],
       [call],
       .ok completion)
  | .error e =>
      ([⟨.debug, "Initiating chat completion"⟩,
        ⟨.error, "Chat completion failed"⟩],
       [call],
       .error (.chatModel ⟨chars "Error chatting with model: " ++ e.str⟩))

/- ### `app/routers/chat.py` — the `POST /chat/` handler -/

/-- The validated request body of `POST /chat/`. -/
structure ChatRequest where
  messages : List Message
  hyperparams : Option ChatModelHyperparams
  model_name : Option Str
deriving DecidableEq

/-- An HTTP response body produced by the chat handler: the success shape
`{"choices": [...]}` or the `HTTPException` shape `{"detail": ...}`. -/
inductive Body where
  | choicesBody (choices : List Choice)
  | detail (msg : Str)
deriving DecidableEq

/-- An HTTP response: status code and body. -/
structure HTTPResponse where
  status : Nat
  body : Body
deriving DecidableEq

deriving instance DecidableEq for Except

/-- What running the handler produced: emitted log events, upstream calls
issued, and either an HTTP response or an exception propagated uncaught to
the framework. -/
structure HandlerResult where
  logs : List LogEvent
  calls : List CompletionCall
  outcome : Except PyException HTTPResponse
deriving DecidableEq

/-- The tail of the handler after the `try` body has run: on success,
log and return 200 with the completion's choices; on `ChatModelError`, log
at error level and raise `HTTPException(500, detail=str(e))` (an HTTP
response); any other exception is not caught and propagates unchanged,
with no log emitted on that path. -/
def runChatTry (tryResult : Except PyException ChatCompletion) :
    List LogEvent × Except PyException HTTPResponse :=
  match tryResult with
  | .ok completion =>
      ([⟨.info, "Chat request completed successfully"⟩],
       .ok ⟨200, .choicesBody completion.choices⟩)
  | .error (.chatModel err) =>
      ([⟨.error, "Chat request failed"⟩],
       .ok ⟨500, .detail err.message⟩)
  | .error e => ([], .error e)

/-- The `chat` handler: log receipt, construct the service from the global
config and the request's hyperparams/model name, await `service.chat`, then
map the result as `runChatTry` does. -/
def chatHandler (cfg : Config) (request : ChatRequest) (upstream : Upstream) :
    HandlerResult :=
  let svc := ChatModelService.init cfg request.hyperparams request.model_name
  let r := svc.chat request.messages upstream
  let t := runChatTry r.2.2
  { logs := ⟨.info, "Received chat request"⟩ :: r.1 ++ t.1
    calls := r.2.1
    outcome := t.2 }

/- ### framework validation in front of the handler -/

/-- The request body as received on the wire, before pydantic validation of
the nested `ChatModelHyperparams` bounds. -/
structure RawChatRequest where
  messages : List Message
  hyperparams : Option ChatModelHyperparams
  model_name : Option Str
deriving DecidableEq

/-- FastAPI/pydantic validation of the request body: an out-of-bounds
hyperparameter set makes parsing fail (a 422 before the handler runs). -/
def parseChatRequest (raw : RawChatRequest) : Option ChatRequest :=
  match raw.hyperparams with
  | none => some ⟨raw.messages, none, raw.model_name⟩
  | some h =>
      match h.validate with
      | none => none
      | some vh => some ⟨raw.messages, some vh, raw.model_name⟩

/-- Result of the full route: the framework's validation error, or whatever
the handler produced. -/
inductive PipelineResult where
  | validationError
  | handled (r : HandlerResult)
deriving DecidableEq

/-- `POST /chat/` end to end: validate the body, then run the handler. -/
def handleRawRequest (cfg : Config) (raw : RawChatRequest)
    (upstream : Upstream) : PipelineResult :=
  match parseChatRequest raw with
  | none => .validationError
  | some req => .handled (chatHandler cfg req upstream)

/-- The upstream calls a pipeline run issued (none when validation failed
before the handler ran). -/
def PipelineResult.upstreamCalls : PipelineResult → List CompletionCall
  | .validationError => []
  | .handled r => r.calls

/- ### helper lemmas -/

theorem chat_calls (svc : ChatModelService) (msgs : List Message) (u : Upstream) :
    (svc.chat msgs u).2.1 = [svc.buildCall msgs] := by
  unfold ChatModelService.chat
  cases hu : u (svc.buildCall msgs) <;> simp [hu]

theorem handler_calls (cfg : Config) (req : ChatRequest) (u : Upstream) :
    (chatHandler cfg req u).calls =
      [(ChatModelService.init cfg req.hyperparams req.model_name).buildCall req.messages] := by
  unfold chatHandler
  simp [chat_calls]

set_option maxRecDepth 8192

/- sanity examples on concrete inputs -/

example : truncate_value (.pstr (chars "short")) = chars "short" := by decide
example : (truncate_value (.pstr (List.replicate 150 'a'))).length = 100 := by decide
example : truncate_value (.pstr (List.replicate 150 'a')) =
    List.replicate 97 'a' ++ chars "..." := by decide

/- ### claim theorems -/

/-- C7: the `GET /` health endpoint always returns HTTP 200 with the fixed
payload `{"status": "healthy", "service": "MCS-Agent"}`, for every process
state and independent of upstream API availability. -/
theorem C7_health_check_fixed (st : ProcessState) :
    health_check st =
      (200, { status := chars "healthy", service := chars "MCS-Agent" }) := rfl

/-- C8: for every structured log field value, `_truncate_value` produces a
string of length at most 100; a rendering of length at most 100 is returned
unchanged, and a longer one becomes its first 97 characters followed by
`"..."`. -/
theorem C8_truncate_value_bound (v : PyValue) :
    (truncate_value v).length ≤ 100 ∧
    ((renderValue v).length ≤ 100 → truncate_value v = renderValue v) ∧
    ((renderValue v).length > 100 →
      truncate_value v = (renderValue v).take 97 ++ chars "...") := by
  refine ⟨truncateRendered_length_le _, ?_, ?_⟩
  · intro hle
    unfold truncate_value truncateRendered
    rw [if_neg (by omega)]
  · intro hgt
    unfold truncate_value truncateRendered
    rw [if_pos (by omega)]

/-- Witness for C8 at concrete inputs: a 150-character value is truncated to
its first 97 characters plus the ellipsis. -/
theorem C8_truncate_value_bound_witness :
    (renderValue (.pstr (List.replicate 150 'a'))).length > 100 ∧
    truncate_value (.pstr (List.replicate 150 'a')) =
      (renderValue (.pstr (List.replicate 150 'a'))).take 97 ++ chars "..." :=
  ⟨by decide, (C8_truncate_value_bound (.pstr (List.replicate 150 'a'))).2.2 (by decide)⟩

/-- C10: `_truncate_value` is idempotent — applying it to its own output (a
string) returns that output unchanged. -/
theorem C10_truncate_value_idempotent (v : PyValue) :
    truncate_value (.pstr (truncate_value v)) = truncate_value v := by
  have hle : (truncate_value v).length ≤ 100 :=
    truncateRendered_length_le (renderValue v)
  show truncateRendered (truncate_value v) 100 = truncate_value v
  unfold truncateRendered
  rw [if_neg (by omega)]

/-- C4: construction of a hyperparameter set succeeds exactly when every
field is within its declared bound, and an out-of-bounds set makes the
route fail validation before any upstream call is issued. -/
theorem C4_hyperparams_validation (h : ChatModelHyperparams) :
    (h.validate = some h ↔
      (0 ≤ h.temperature ∧ h.temperature ≤ 1 ∧
       1 ≤ h.max_tokens ∧ h.max_tokens ≤ 8192 ∧
       0 ≤ h.top_p ∧ h.top_p ≤ 1 ∧
       0 ≤ h.frequency_penalty ∧ h.frequency_penalty ≤ 1 ∧
       0 ≤ h.presence_penalty ∧ h.presence_penalty ≤ 1 ∧
       1 ≤ h.n ∧ h.n ≤ 10 ∧
       logprobsInBounds h.logprobs)) ∧
    (¬ h.inBounds →
      ∀ (cfg : Config) (msgs : List Message) (mn : Option Str) (u : Upstream),
        handleRawRequest cfg ⟨msgs, some h, mn⟩ u = .validationError ∧
        (handleRawRequest cfg ⟨msgs, some h, mn⟩ u).upstreamCalls = []) := by
  constructor
  · show h.validate = some h ↔ h.inBounds
    unfold ChatModelHyperparams.validate
    by_cases hb : h.inBounds
    · simp [hb]
    · simp [hb]
  · intro hnb cfg msgs mn u
    have hv : h.validate = none := by
      unfold ChatModelHyperparams.validate
      simp [hnb]
    have hp : handleRawRequest cfg ⟨msgs, some h, mn⟩ u = .validationError := by
      unfold handleRawRequest parseChatRequest
      simp [hv]
    exact ⟨hp, by rw [hp]; rfl⟩

/-- Fixed configuration used to instantiate claims at concrete inputs. -/
def cfgEx : Config :=
  { server_host := chars "0.0.0.0"
    server_port := 8000
    logging_level := chars "INFO"
    llm_base_url := chars "https://llm.example/v1"
    llm_api_key := chars "key"
    llm_name := chars "gpt-default" }

/-- An out-of-bounds hyperparameter set: `max_tokens = 0`. -/
def hpEx : ChatModelHyperparams :=
  { temperature := 1
    max_tokens := 0
    top_p := 1
    frequency_penalty := 0
    presence_penalty := 0
    n := 1
    stop := []
    stream := false
    logprobs := none }

/-- A stub upstream returning one fixed successful completion. -/
def upstreamEx : Upstream :=
  fun _ => .ok { model := chars "gpt-default"
                 choices := [{ finish_reason := chars "stop", content := chars "hello" }] }

/-- Witness for C4 at a concrete input: `max_tokens = 0` is rejected by
validation and the route issues no upstream call. -/
theorem C4_hyperparams_validation_witness :
    ¬ hpEx.inBounds ∧
    handleRawRequest cfgEx ⟨[], some hpEx, none⟩ upstreamEx = .validationError :=
  ⟨by decide, ((C4_hyperparams_validation hpEx).2 (by decide) cfgEx [] none upstreamEx).1⟩

/-- Counterexample to C2 as stated: `model_name` set to the empty string is
a set string value, yet the upstream adapter is invoked with the configured
default model name, not the supplied `""`. -/
theorem C2_counterexample :
    ((chatHandler cfgEx
        { messages := [{ role := chars "user", content := chars "hi" }],
          hyperparams := none, model_name := some [] }
        upstreamEx).calls.map CompletionCall.model = [chars "gpt-default"]) ∧
    chars "gpt-default" ≠ ([] : Str) := by
  constructor
  · rfl
  · decide

/-- C2 (amended): a request with a non-empty `model_name` makes the adapter
call use that name; with `model_name` omitted (or empty, by the truthiness
check) the configured default is used. -/
theorem C2_model_name_resolution (cfg : Config)
    (hp : Option ChatModelHyperparams) (msgs : List Message) (u : Upstream) :
    (∀ m : Str, m ≠ [] →
      (chatHandler cfg ⟨msgs, hp, some m⟩ u).calls.map CompletionCall.model = [m]) ∧
    (chatHandler cfg ⟨msgs, hp, none⟩ u).calls.map CompletionCall.model =
      [cfg.llm_name] := by
  constructor
  · intro m hm
    rw [handler_calls]
    simp [ChatModelService.buildCall, ChatModelService.init, hm]
  · rw [handler_calls]
    simp [ChatModelService.buildCall, ChatModelService.init]

/-- Witness for C2 (amended) at a concrete input: a request naming
`llama-3` is forwarded with model `llama-3`. -/
theorem C2_model_name_resolution_witness :
    chars "llama-3" ≠ ([] : Str) ∧
    (chatHandler cfgEx ⟨[], none, some (chars "llama-3")⟩ upstreamEx).calls.map
      CompletionCall.model = [chars "llama-3"] :=
  ⟨by decide,
   (C2_model_name_resolution cfgEx none [] upstreamEx).1 (chars "llama-3") (by decide)⟩

/-- C9: a request whose `model_name` is the empty string (set but falsy)
uses the configured default model name — the override check is on
truthiness, not on presence. -/
theorem C9_empty_model_name_uses_default (cfg : Config)
    (hp : Option ChatModelHyperparams) (msgs : List Message) (u : Upstream) :
    (ChatModelService.init cfg hp (some [])).llm_name = cfg.llm_name ∧
    (chatHandler cfg ⟨msgs, hp, some []⟩ u).calls.map CompletionCall.model =
      [cfg.llm_name] := by
  constructor
  · rfl
  · rw [handler_calls]
    rfl

/-- C3: with no hyperparameter set supplied, the completion call carries no
hyperparameter options at all; with a set supplied, it carries exactly the
nine declared fields as named options and no others. -/
theorem C3_hyperparam_expansion (cfg : Config) (mn : Option Str)
    (msgs : List Message) (u : Upstream) :
    ((ChatModelService.init cfg none mn).chat msgs u).2.1 =
      [{ model := (ChatModelService.init cfg none mn).llm_name,
         messages := msgs, options := [] }] ∧
    ∀ h : ChatModelHyperparams,
      ((ChatModelService.init cfg (some h) mn).chat msgs u).2.1 =
        [{ model := (ChatModelService.init cfg (some h) mn).llm_name,
           messages := msgs,
           options := [("temperature", .ofRat h.temperature),
                       ("max_tokens", .ofInt h.max_tokens),
                       ("top_p", .ofRat h.top_p),
                       ("frequency_penalty", .ofRat h.frequency_penalty),
                       ("presence_penalty", .ofRat h.presence_penalty),
                       ("n", .ofInt h.n),
                       ("stop", .ofStrList h.stop),
                       ("stream", .ofBool h.stream),
                       ("logprobs", .ofOptInt h.logprobs)] }] := by
  constructor
  · rw [chat_calls]
    rfl
  · intro h
    rw [chat_calls]
    rfl

/-- C5: a successful upstream call returning N choices yields an HTTP 200
response whose choice list is the upstream choice list itself — exactly N
entries, order preserved, content unchanged. -/
theorem C5_choices_preserved (cfg : Config) (req : ChatRequest)
    (completion : ChatCompletion) :
    (chatHandler cfg req (fun _ => .ok completion)).outcome =
      .ok { status := 200, body := .choicesBody completion.choices } := rfl

/-- C6: the handler's `except` clause catches exactly `ChatModelError`
(turning it into a logged HTTP 500); an exception of any other type is not
caught — it propagates unchanged to the framework with no log event emitted
on that path. -/
theorem C6_catch_scope (m t sr : Str) :
    (runChatTry (.error (.chatModel ⟨m⟩)) =
      ([{ level := .error, message := "Chat request failed" }],
       .ok { status := 500, body := .detail m })) ∧
    runChatTry (.error (.other t sr)) = ([], .error (.other t sr)) :=
  ⟨rfl, rfl⟩

/-- Counterexample to C1 as stated: an upstream exception whose type is
named `Error` (a common library exception class name) is wrapped into a 500
whose detail begins with `Error chatting with model: ` — the detail body
does contain the raw exception type name as a substring. -/
theorem C1_counterexample :
    (chatHandler cfgEx
        { messages := [{ role := chars "user", content := chars "hi" }],
          hyperparams := none, model_name := none }
        (fun _ => .error (.other (chars "Error") (chars "connection refused")))).outcome =
      .ok { status := 500,
            body := .detail (chars "Error chatting with model: connection refused") } ∧
    (PyException.other (chars "Error") (chars "connection refused")).typeName <:+:
      chars "Error chatting with model: connection refused" := by
  constructor
  · rfl
  · decide

/-- C1 (amended): every upstream exception `e` is re-raised as a
`ChatModelError` whose message is exactly `Error chatting with model: `
followed by `str(e)`, and the handler answers HTTP 500 whose detail is
exactly that message — so it contains the original error text as a
substring, and is built only from `str(e)`, never from the exception's type
name (the type name can still occur when it happens to be a substring of
that text, as in the counterexample). -/
theorem C1_error_translation (cfg : Config) (req : ChatRequest) (e : PyException) :
    ((ChatModelService.init cfg req.hyperparams req.model_name).chat req.messages
        (fun _ => .error e)).2.2 =
      .error (.chatModel ⟨chars "Error chatting with model: " ++ e.str⟩) ∧
    (chatHandler cfg req (fun _ => .error e)).outcome =
      .ok { status := 500,
            body := .detail (chars "Error chatting with model: " ++ e.str) } ∧
    e.str <:+: chars "Error chatting with model: " ++ e.str :=
  ⟨rfl, rfl, (List.suffix_append _ _).isInfix⟩
